import Mathlib

/-!
Shallow Lean embedding of the connection-lifecycle and safe-query-execution
subsystem of the Vertica-MCP repository (`src/mcp_vertica/config.py`,
`pool.py`, `sqlman.py`), together with theorems settling the frozen claims
about its natural-language specification.

Conventions of the embedding:
* Python `str` is Lean `String`; character-level processing is done on
  `List Char` (ASCII inputs; the source only matches ASCII patterns).
* Python `int` is `Int`, `float` is `ℚ` (every numeric literal appearing in
  the claims — 0.25, 0.5, 1.0, 0.9, 0.2 — is a dyadic rational, on which IEEE
  double arithmetic and comparison agree with exact rational arithmetic).
* Fallible constructors return `Except String α`, mirroring `ValueError` /
  pydantic `ValidationError`.
* Mutable dictionaries (the `params` argument of `run_sql`) are modelled by a
  store of insertion-ordered association lists indexed by `Nat` references,
  so that frame effects (which object a write targets) are visible.
-/

namespace VerticaMCP

/-! ## Basic Python-semantics helpers -/

/-- The six ASCII whitespace characters matched by Python's `\s` and stripped
by `str.strip()` (ASCII fragment; the source only feeds it ASCII). -/
def isPySpace (c : Char) : Bool :=
  c = ' ' || c = '\t' || c = '\n' || c = '\r' || c = '\x0b' || c = '\x0c'

/-- Python `str.strip()` on a character list. -/
def pyStripList (cs : List Char) : List Char :=
  ((cs.dropWhile isPySpace).reverse.dropWhile isPySpace).reverse

/-- Python `str.strip()`. -/
def pyStrip (s : String) : String :=
  ⟨pyStripList s.data⟩

/-- Digit-run validity for Python `int()` literals: nonempty, starts and ends
with a digit, and any `_` separates two digits. -/
def pyDigitsOk : List Char → Bool
  | [] => false
  | [c] => c.isDigit
  | c :: c' :: rest =>
    c.isDigit && (if c' = '_' then pyDigitsOk rest else pyDigitsOk (c' :: rest))

/-- Numeric value of a digit run with optional single `_` separators. -/
def pyDigitsVal : List Char → Nat
  | [] => 0
  | c :: rest =>
    if c = '_' then pyDigitsVal rest
    else pyDigitsVal rest + c.toNat.sub 48 * 10 ^ (rest.filter (· ≠ '_')).length

/-- Python `int(s)` on decimal literals: surrounding whitespace, an optional
sign, then digits with optional underscore separators; anything else raises
`ValueError`, modelled as `none`. -/
def pyInt (s : String) : Option Int :=
  match pyStripList s.data with
  | '-' :: rest => if pyDigitsOk rest then some (-(pyDigitsVal rest : Int)) else none
  | '+' :: rest => if pyDigitsOk rest then some ((pyDigitsVal rest : Int)) else none
  | rest => if pyDigitsOk rest then some ((pyDigitsVal rest : Int)) else none

/-- Python `max(a, b)` on numbers (`a` when `a ≥ b`). -/
def pyMaxQ (a b : ℚ) : ℚ := if a < b then b else a

/-- Python `max(a, b)` on integers. -/
def pyMaxInt (a b : Int) : Int := if a < b then b else a

/-- `needle` occurs contiguously inside `hay` (Python's `in` on `str`). -/
def listContainsSub (hay needle : List Char) : Bool :=
  needle.isPrefixOf hay ||
    match hay with
    | [] => false
    | _ :: t => listContainsSub t needle

/-- Python `needle in hay` for strings. -/
def strContains (hay needle : String) : Bool :=
  listContainsSub hay.data needle.data

/-- Python `s.split(sep)` for a single-character separator (empty pieces
preserved); structural, unlike core `String.splitOn`, so proofs can
evaluate it. -/
def splitOnCharGo (sep : Char) : List Char → List Char → List String
  | [], acc => [⟨acc.reverse⟩]
  | c :: rest, acc =>
    if c = sep then (⟨acc.reverse⟩ : String) :: splitOnCharGo sep rest []
    else splitOnCharGo sep rest (c :: acc)

def pySplit (s : String) (sep : Char) : List String :=
  splitOnCharGo sep s.data []

/-- Python `s.endswith(suffix)`. -/
def pyEndsWith (s suffix : String) : Bool :=
  suffix.data.isSuffixOf s.data

/-- ASCII lower-casing, as used by Python's `str.lower()` / `re.IGNORECASE`
on the ASCII patterns of the source. -/
def lowerAscii (c : Char) : Char :=
  if 'A' ≤ c ∧ c ≤ 'Z' then Char.ofNat (c.toNat + 32) else c

def lowerStr (s : String) : String :=
  ⟨s.data.map lowerAscii⟩

/-! ## config.py — environment access helpers -/

/-- The process environment, `os.environ`, as an association list;
`envLookup` is `os.getenv`. -/
def EnvMap := List (String × String)

def envLookup (env : EnvMap) (key : String) : Option String :=
  match env with
  | [] => none
  | (k, v) :: rest => if k = key then some v else envLookup rest key

/-- `_env` (config.py:54-72): direct key wins over the `MCP_`-prefixed alias;
a present-but-blank value counts as unset. -/
def envRead (env : EnvMap) (key : String) : Option String :=
  let value :=
    match envLookup env key with
    | some v => some v
    | none => envLookup env ("MCP_" ++ key)
  match value with
  | none => none
  | some v => if pyStrip v = "" then none else some v

/-- `_env_or_default` (config.py:84-90). -/
def envOrDefault (env : EnvMap) (key : String) (dflt : String) : String :=
  (envRead env key).getD dflt

/-- `_env_int_or_default` (config.py:93-111): unparsable values fall back to
the default with a warning, never fail. -/
def envIntOrDefault (env : EnvMap) (key : String) (dflt : Int) : Int :=
  match envRead env key with
  | none => dflt
  | some v => (pyInt v).getD dflt

/-- Python `float(s)` restricted to the shapes the settings actually use:
either a decimal integer literal or `intpart.fracpart`.  Exotic float syntax
(exponents, `inf`, `nan`) is out of scope for the claims. -/
def pyFloatSimple (s : String) : Option ℚ :=
  match pySplit (pyStrip s) '.' with
  | [ipart] => (pyInt ipart).map fun n => (n : ℚ)
  | [ipart, fpart] =>
    let fchars := fpart.data
    if fchars.all Char.isDigit ∧ fchars ≠ [] then
      (pyInt ipart).map fun n =>
        let frac : ℚ := (pyDigitsVal fchars : ℚ) / (10 ^ fchars.length : ℚ)
        if n < 0 ∨ (pyStrip s).data.head? = some '-' then (n : ℚ) - frac else (n : ℚ) + frac
    else none
  | _ => none

/-- `_env_float_or_default` (config.py:114-132). -/
def envFloatOrDefault (env : EnvMap) (key : String) (dflt : ℚ) : ℚ :=
  match envRead env key with
  | none => dflt
  | some v => (pyFloatSimple v).getD dflt

/-- `_env_bool` (config.py:135-147). -/
def envBool (env : EnvMap) (key : String) (dflt : Bool) : Bool :=
  match envRead env key with
  | none => dflt
  | some v =>
    let c := lowerStr (pyStrip v)
    if c = "1" ∨ c = "true" ∨ c = "yes" ∨ c = "on" then true
    else if c = "0" ∨ c = "false" ∨ c = "no" ∨ c = "off" then false
    else dflt

/-- `_split_csv` (config.py:150-153). -/
def splitCsv (value : Option String) (fallback : List String) : List String :=
  match value with
  | none => fallback
  | some v =>
    if v = "" then fallback
    else ((pySplit v ',').map pyStrip).filter (fun item => item ≠ "")

/-! ## config.py — backup-node parsing -/

def DEFAULT_DB_HOST : String := "127.0.0.1"
def DEFAULT_DB_PORT : Int := 5433
def DEFAULT_DB_USER : String := "mcp_app"
def DEFAULT_DB_PASSWORD : String := "change-me-please"
def DEFAULT_DB_NAME : String := "vertica"

/-- Python `s.rsplit(":", 1)` on a string known to contain `:`. -/
def rsplitColon (s : String) : String × String :=
  let cs := s.data.reverse
  let pre := cs.takeWhile (· ≠ ':')
  let post := cs.dropWhile (· ≠ ':')
  (⟨(post.drop 1).reverse⟩, ⟨pre.reverse⟩)

/-- One iteration of the entry loop of `_parse_backup_nodes`
(config.py:163-196); `.ok none` models `continue` on a blank entry. -/
def parseBackupEntry (entry : String) : Except String (Option (String × Int)) :=
  let candidate := pyStrip entry
  if candidate = "" then .ok none
  else
    let hp : Except String (String × Int) :=
      if strContains candidate ":" then
        let (hostPart, portPart) := rsplitColon candidate
        let host := pyStrip hostPart
        let portText := pyStrip portPart
        if host = "" then
          .error "DB_BACKUP_NODES entries must include a hostname before the colon"
        else if portText = "" then
          .error "DB_BACKUP_NODES entries must include a port number after the colon"
        else
          match pyInt portText with
          | none => .error "DB_BACKUP_NODES port values must be integers"
          | some port => .ok (host, port)
      else .ok (candidate, DEFAULT_DB_PORT)
    match hp with
    | .error e => .error e
    | .ok (host, port) =>
      if host = "" then .error "DB_BACKUP_NODES entries must not be empty"
      else if ¬(1 ≤ port ∧ port ≤ 65535) then
        .error "DB_BACKUP_NODES ports must be between 1 and 65535"
      else .ok (some (host, port))

def parseBackupNodesGo : List String → Except String (List (String × Int))
  | [] => .ok []
  | entry :: rest =>
    match parseBackupEntry entry with
    | .error e => .error e
    | .ok head =>
      match parseBackupNodesGo rest with
      | .error e => .error e
      | .ok tail =>
        match head with
        | none => .ok tail
        | some node => .ok (node :: tail)

/-- `_parse_backup_nodes` (config.py:156-198). -/
def parseBackupNodes (raw : Option String) : Except String (List (String × Int)) :=
  match raw with
  | none => .ok []
  | some r => if r = "" then .ok [] else parseBackupNodesGo (pySplit r ',')

/-! ## config.py — Settings -/

/-- The fields of `Settings` (config.py:224-295) that the verified subsystem
reads, together with the private `_database_source` provenance flag.
TLS options are carried as parsed values; `use_ssl` after its validator is an
optional boolean. -/
structure Settings where
  host : String
  port : Int
  user : String
  password : String
  database : String
  max_rows : Int
  query_timeout_s : Int
  pool_size : Int
  connection_attempts : Int
  connection_retry_backoff_s : ℚ
  http_token : Option String
  cors_origins : Option String
  allowed_schemas : List String
  db_debug_logging : Bool
  backup_nodes : List (String × Int)
  tls_mode : Option String
  use_ssl : Option Bool
  tls_cafile : Option String
  tls_certfile : Option String
  tls_keyfile : Option String
  database_source : String
  deriving Repr, DecidableEq

/-- `_validate_tls_mode` (config.py:307-329). -/
def validateTlsMode (value : Option String) : Except String (Option String) :=
  match value with
  | none => .ok none
  | some v =>
    let candidate := lowerStr (pyStrip v)
    if candidate = "" then .ok none
    else if candidate = "disable" ∨ candidate = "allow" ∨ candidate = "prefer" ∨
        candidate = "require" ∨ candidate = "verify-ca" ∨ candidate = "verify-full" then
      .ok (some candidate)
    else
      .error "DB_TLSMODE must be one of disable, allow, prefer, require, verify-ca, verify-full"

/-- `_validate_use_ssl` (config.py:331-346). -/
def validateUseSsl (value : Option String) : Except String (Option Bool) :=
  match value with
  | none => .ok none
  | some v =>
    let candidate := lowerStr (pyStrip v)
    if candidate = "" then .ok none
    else if candidate = "1" ∨ candidate = "true" ∨ candidate = "yes" ∨ candidate = "on" then
      .ok (some true)
    else if candidate = "0" ∨ candidate = "false" ∨ candidate = "no" ∨ candidate = "off" then
      .ok (some false)
    else .error "DB_USE_SSL must be a boolean value"

/-- `_validate_optional_path` (config.py:348-357). -/
def validateOptionalPath (value : Option String) : Option String :=
  match value with
  | none => none
  | some v => let c := pyStrip v; if c = "" then none else some c

/-- `Settings()` construction from the environment (config.py:224-305,
480-485): every field default-factory in declaration order, followed by the
field validators; any validator failure aborts construction
(pydantic `ValidationError`).  `model_post_init` sets the provenance flag to
`"environment"`. -/
def settingsFromEnv (env : EnvMap) : Except String Settings :=
  let host := envOrDefault env "DB_HOST" DEFAULT_DB_HOST
  let port := envIntOrDefault env "DB_PORT" DEFAULT_DB_PORT
  let user := envOrDefault env "DB_USER" DEFAULT_DB_USER
  let password := envOrDefault env "DB_PASSWORD" DEFAULT_DB_PASSWORD
  let database := envOrDefault env "DB_NAME" DEFAULT_DB_NAME
  let max_rows := envIntOrDefault env "MAX_ROWS" 1000
  let query_timeout_s := envIntOrDefault env "QUERY_TIMEOUT_S" 15
  let pool_size := envIntOrDefault env "POOL_SIZE" 8
  let connection_attempts := envIntOrDefault env "DB_CONNECTION_RETRIES" 3
  let backoff := envFloatOrDefault env "DB_CONNECTION_RETRY_BACKOFF_S" (1 / 2)
  let http_token := envRead env "HTTP_TOKEN"
  let cors_origins := envRead env "CORS_ORIGINS"
  let allowed_schemas := splitCsv (envRead env "ALLOWED_SCHEMAS") ["public"]
  let db_debug_logging := envBool env "DB_DEBUG" false
  let tls_cafile := validateOptionalPath (envRead env "DB_TLS_CAFILE")
  let tls_certfile := validateOptionalPath (envRead env "DB_TLS_CERTFILE")
  let tls_keyfile := validateOptionalPath (envRead env "DB_TLS_KEYFILE")
  if connection_attempts < 1 then
    .error "connection_attempts must be greater than or equal to 1"
  else if backoff < 0 then
    .error "connection_retry_backoff_s must be greater than or equal to 0"
  else if allowed_schemas = [] then
    .error "At least one allowed schema must be configured"
  else
    match parseBackupNodes (envRead env "DB_BACKUP_NODES") with
    | .error e => .error e
    | .ok backup_nodes =>
      match validateTlsMode (envRead env "DB_TLSMODE") with
      | .error e => .error e
      | .ok tls_mode =>
        match validateUseSsl (envRead env "DB_USE_SSL") with
        | .error e => .error e
        | .ok use_ssl =>
          .ok {
            host, port, user, password, database, max_rows, query_timeout_s, pool_size
            connection_attempts
            connection_retry_backoff_s := backoff
            http_token, cors_origins, allowed_schemas, db_debug_logging, backup_nodes
            tls_mode, use_ssl, tls_cafile, tls_certfile, tls_keyfile
            database_source := "environment"
          }

/-- `allowed_schema_set` (config.py:406-407), recomputed on demand. -/
def allowedSchemaSet (s : Settings) : List String :=
  s.allowed_schemas.map lowerStr

/-- `using_placeholder_credentials` (config.py:409-417). -/
def usingPlaceholderCredentials (s : Settings) : Bool :=
  s.host = DEFAULT_DB_HOST && s.user = DEFAULT_DB_USER &&
    s.password = DEFAULT_DB_PASSWORD && s.database = DEFAULT_DB_NAME

/-- `DatabaseOverrides` after pydantic validation (config.py:201-221): the
string fields are stripped and non-empty, the port is in `[1, 65535]`. -/
structure DatabaseOverrides where
  host : String
  port : Int
  user : String
  password : String
  database : String
  deriving Repr, DecidableEq

/-- The `DatabaseOverrides` constructor (config.py:201-221): strips each
string field, rejects empties, range-checks the port. -/
def coerceNonEmpty (name v : String) : Except String String :=
  let c := pyStrip v
  if c = "" then .error (name ++ " must not be empty") else .ok c

def mkDatabaseOverrides (host : String) (port : Int) (user password database : String) :
    Except String DatabaseOverrides :=
  match coerceNonEmpty "host" host, coerceNonEmpty "user" user,
      coerceNonEmpty "password" password, coerceNonEmpty "database" database with
  | .ok host, .ok user, .ok password, .ok database =>
    if 1 ≤ port ∧ port ≤ 65535 then .ok { host, port, user, password, database }
    else .error "port must be in range"
  | .error e, _, _, _ => .error e
  | _, .error e, _, _ => .error e
  | _, _, .error e, _ => .error e
  | _, _, _, .error e => .error e

/-- `apply_database_overrides` (config.py:423-432): replaces the five
connection fields and marks the provenance as runtime. -/
def applyDatabaseOverrides (s : Settings) (o : DatabaseOverrides) : Settings :=
  { s with
    host := o.host, port := o.port, user := o.user
    password := o.password, database := o.database
    database_source := "runtime" }

/-- `reload_from_environment` (config.py:434-442): builds a fresh `Settings`
from the environment, copies every public field of the fresh instance over
the live one, and adopts the fresh instance's provenance flag. -/
def reloadFromEnvironment (_s : Settings) (env : EnvMap) : Except String Settings :=
  match settingsFromEnv env with
  | .error e => .error e
  | .ok refreshed => .ok { refreshed with database_source := refreshed.database_source }

/-! ## pool.py — credential redaction

`_redact_sensitive_text` (pool.py:42-67) applies four `re.sub` passes in
order: the quoted-key pattern, the `Authorization` pattern, the unquoted
key pattern, and the bare `Bearer` pattern.  Each pattern is embedded as an
anchored matcher returning the replacement text and the input remaining
after the match; a generic driver reproduces `re.sub`'s leftmost,
non-overlapping scan.  All four patterns consume at least one character, so
the driver's fuel (the input length) is never exhausted. -/

def isQuoteChar (c : Char) : Bool := c = '\'' || c = '"'

/-- Case-insensitive literal match (the patterns carry `re.IGNORECASE`);
`lit` is given lower-case, the original spelling of the matched text is
returned (regex groups preserve the source text). -/
def matchLitCI (lit : List Char) (cs : List Char) : Option (List Char × List Char) :=
  match lit, cs with
  | [], rest => some ([], rest)
  | _ :: _, [] => none
  | l :: ls, c :: rest =>
    if lowerAscii c = l then
      (matchLitCI ls rest).map fun m => (c :: m.1, m.2)
    else none

/-- The key alternation `password|token|secret`; the three literals start
with distinct letters, so at most one branch can match at a position. -/
def matchSensitiveKey (cs : List Char) : Option (List Char × List Char) :=
  (matchLitCI "password".data cs).orElse fun _ =>
    (matchLitCI "token".data cs).orElse fun _ =>
      matchLitCI "secret".data cs

/-- `pred`-run of length ≥ 1 (a greedy `[...]+` atom). -/
def takeValue (pred : Char → Bool) (cs : List Char) : Option (List Char × List Char) :=
  let v := cs.takeWhile pred
  if v = [] then none else some (v, cs.drop v.length)

/-- Character class `[^'\"\s,;]` of the unquoted-value group. -/
def unqValChar (c : Char) : Bool :=
  !isQuoteChar c && !isPySpace c && c ≠ ',' && c ≠ ';'

/-- Character class `[^\s,;]` of the authorization/bearer value groups. -/
def authValChar (c : Char) : Bool :=
  !isPySpace c && c ≠ ',' && c ≠ ';'

def redactedMarker : List Char := "<redacted>".data

/-- Anchored attempt of `_QUOTED_SENSITIVE_PATTERN` (pool.py:27-30):
`(['\"])(password|token|secret)\1\s*:\s*(['\"])(.*?)\3` with the
replacement `_quoted_repl` (key kept, separator normalised to `: `,
value replaced).  The lazy `.*?` cannot cross a newline. -/
def quotedMatch (cs : List Char) : Option (List Char × List Char) :=
  match cs with
  | [] => none
  | q :: rest =>
    if isQuoteChar q then
      match matchSensitiveKey rest with
      | none => none
      | some (key, r1) =>
        match r1 with
        | [] => none
        | q2 :: r2 =>
          if q2 = q then
            match r2.dropWhile isPySpace with
            | ':' :: r4 =>
              match r4.dropWhile isPySpace with
              | [] => none
              | vq :: r6 =>
                if isQuoteChar vq then
                  let v := r6.takeWhile fun c => c ≠ vq && c ≠ '\n'
                  match r6.drop v.length with
                  | c :: r8 =>
                    if c = vq then
                      some (q :: key ++ q :: ':' :: ' ' :: vq :: redactedMarker ++ [vq], r8)
                    else none
                  | [] => none
                else none
            | _ => none
          else none
    else none

/-- Anchored attempt of `_AUTHORIZATION_PATTERN` (pool.py:35-38):
`authorization\s*[=:]\s*(bearer\s+)?([^\s,;]+)` with `_authorization_repl`
(prefix and scheme kept, value replaced).  If the optional scheme matches
but no value follows, the engine backtracks to the scheme-less parse. -/
def authMatch (cs : List Char) : Option (List Char × List Char) :=
  match matchLitCI "authorization".data cs with
  | none => none
  | some (auth, r1) =>
    let w1 := r1.takeWhile isPySpace
    match r1.drop w1.length with
    | [] => none
    | sep :: r3 =>
      if sep = '=' || sep = ':' then
        let w2 := r3.takeWhile isPySpace
        let r4 := r3.drop w2.length
        let pre := auth ++ w1 ++ sep :: w2
        let noScheme : Option (List Char × List Char) :=
          (takeValue authValChar r4).map fun m => (pre ++ redactedMarker, m.2)
        match matchLitCI "bearer".data r4 with
        | none => noScheme
        | some (b, rb) =>
          let sp := rb.takeWhile isPySpace
          if sp = [] then noScheme
          else
            match takeValue authValChar (rb.drop sp.length) with
            | some m => some (pre ++ b ++ sp ++ redactedMarker, m.2)
            | none => noScheme
      else none

/-- Anchored attempt of `_UNQUOTED_SENSITIVE_PATTERN` (pool.py:31-34):
`(password|token|secret)\s*[=:]\s*(['\"]?)([^'\"\s,;]+)(?P=quote)?` with
`_unquoted_repl` (prefix and quote kept, value replaced).  When the
optional quote is taken the value cannot start with a quote character, so
backtracking to the empty quote cannot rescue a failed value match. -/
def unquotedMatch (cs : List Char) : Option (List Char × List Char) :=
  match matchSensitiveKey cs with
  | none => none
  | some (key, r1) =>
    let w1 := r1.takeWhile isPySpace
    match r1.drop w1.length with
    | [] => none
    | sep :: r3 =>
      if sep = '=' || sep = ':' then
        let w2 := r3.takeWhile isPySpace
        let r4 := r3.drop w2.length
        let pre := key ++ w1 ++ sep :: w2
        match r4 with
        | [] => none
        | qc :: r5 =>
          if isQuoteChar qc then
            match takeValue unqValChar r5 with
            | none => none
            | some (_, r6) =>
              let r7 := match r6 with
                | c :: tail => if c = qc then tail else r6
                | [] => r6
              some (pre ++ qc :: redactedMarker ++ [qc], r7)
          else
            match takeValue unqValChar r4 with
            | none => none
            | some (_, r6) => some (pre ++ redactedMarker, r6)
      else none

/-- Anchored attempt of `_BEARER_PATTERN` (pool.py:39): `(Bearer\s+)([^\s,;]+)`
with the scheme kept and the value replaced. -/
def bearerMatch (cs : List Char) : Option (List Char × List Char) :=
  match matchLitCI "bearer".data cs with
  | none => none
  | some (b, r1) =>
    let sp := r1.takeWhile isPySpace
    if sp = [] then none
    else
      match takeValue authValChar (r1.drop sp.length) with
      | none => none
      | some m => some (b ++ sp ++ redactedMarker, m.2)

/-- `re.sub`: scan left to right, replace each leftmost non-overlapping
match, never rescanning replacement text within the same pass. -/
def subAll (m : List Char → Option (List Char × List Char)) :
    Nat → List Char → List Char
  | 0, cs => cs
  | _ + 1, [] => []
  | fuel + 1, c :: cs =>
    match m (c :: cs) with
    | some (repl, rest) => repl ++ subAll m fuel rest
    | none => c :: subAll m fuel cs

/-- `_redact_sensitive_text` (pool.py:42-67): the four substitution passes
in source order; empty input is returned untouched. -/
def redactSensitiveText (text : String) : String :=
  if text = "" then text
  else
    let t1 := subAll quotedMatch text.data.length text.data
    let t2 := subAll authMatch t1.length t1
    let t3 := subAll unquotedMatch t2.length t2
    let t4 := subAll bearerMatch t3.length t3
    ⟨t4⟩

/-! ## pool.py — retry state and `_connect_with_retry`

Timestamps (`_utcnow`/`_isoformat`) are modelled by an abstract clock
`clock : Nat → ℚ` giving the time observed during attempt `n`; the claims
only ever distinguish a set timestamp (`some _`) from an unset one
(`none`). -/

/-- The output of `_exception_summary` (pool.py:70-72): the exception class
name and its redacted, stripped message (`None` when blank). -/
structure ExcInfo where
  name : String
  message : Option String
  deriving Repr, DecidableEq

/-- `_exception_summary` (pool.py:70-72) applied to an exception with class
name `name` and text `raw`. -/
def exceptionSummary (name raw : String) : ExcInfo :=
  let m := pyStrip (redactSensitiveText raw)
  ⟨name, if m = "" then none else some m⟩

/-- The process-wide `_RETRY_STATE` dictionary (pool.py:92-109). -/
structure RetryState where
  in_progress : Bool
  attempts : Nat
  max_attempts : Nat
  strategy : String
  base_backoff_s : ℚ
  last_failure : Option String
  last_exception : Option String
  last_failure_at : Option ℚ
  next_retry_in_s : Option ℚ
  next_retry_at : Option ℚ
  recovered_at : Option ℚ
  exhausted : Bool
  deriving Repr, DecidableEq

/-- `_default_retry_state` (pool.py:92-106). -/
def defaultRetryState (connectionAttempts : Int) (backoff : ℚ) : RetryState where
  in_progress := false
  attempts := 0
  max_attempts := (pyMaxInt 1 connectionAttempts).toNat
  strategy := "exponential"
  base_backoff_s := pyMaxQ 0 backoff
  last_failure := none
  last_exception := none
  last_failure_at := none
  next_retry_in_s := none
  next_retry_at := none
  recovered_at := none
  exhausted := false

/-- `_exponential_backoff_delay` (pool.py:85-89):
`base * 2 ** max(0, attempt - 1)`, or `0` for non-positive `base`. -/
def expBackoffDelay (base : ℚ) (attempt : Nat) : ℚ :=
  if base ≤ 0 then 0 else base * 2 ^ (attempt - 1)

/-- Python `round(x, 3)` (ties to even), used for `next_retry_in_s`. -/
def pyRound3 (q : ℚ) : ℚ :=
  let x := q * 1000
  let f : ℤ := ⌊x⌋
  let frac := x - f
  let n : ℤ :=
    if frac < 1 / 2 then f
    else if 1 / 2 < frac then f + 1
    else if Even f then f else f + 1
  (n : ℚ) / 1000

/-- `_update_retry_context` (pool.py:112-117). -/
def updateRetryContext (attempts : Nat) (baseBackoff : ℚ) (st : RetryState) : RetryState :=
  { st with
    max_attempts := attempts
    base_backoff_s := pyMaxQ 0 baseBackoff
    strategy := "exponential" }

/-- `_record_retry_failure` (pool.py:120-152); returns the updated state and
the delay the caller will sleep for. -/
def recordRetryFailure (exc : ExcInfo) (attempt maxAttempts : Nat) (baseBackoff : ℚ)
    (now : ℚ) (st : RetryState) : RetryState × ℚ :=
  let delay0 := expBackoffDelay baseBackoff attempt
  let delay := if attempt ≥ maxAttempts then 0 else delay0
  let inProgress := decide (attempt < maxAttempts)
  let st1 := { st with
    in_progress := inProgress
    attempts := attempt
    last_failure := some ((exc.message).getD exc.name)
    last_exception := some exc.name
    last_failure_at := some now
    exhausted := !inProgress }
  if inProgress then
    ({ st1 with
        next_retry_in_s := some (pyRound3 delay)
        next_retry_at := some (now + delay) }, delay)
  else
    ({ st1 with next_retry_in_s := none, next_retry_at := none }, delay)

/-- `_record_retry_success` (pool.py:155-164).  Note that `recovered_at` is
written unconditionally, whatever `attempt` is. -/
def recordRetrySuccess (attempt : Nat) (now : ℚ) (st : RetryState) : RetryState :=
  { st with
    in_progress := false
    attempts := attempt
    next_retry_in_s := none
    next_retry_at := none
    exhausted := false
    recovered_at := some now }

/-- The `for attempt in range(1, attempts + 1)` loop of `_connect_with_retry`
(pool.py:239-287).  `outcome n = none` means `_new_conn()` succeeded on
attempt `n`; `some exc` is the summarised exception it raised.  The result
collects the final retry state, the slept delays in order, and either the
successful attempt number (standing for the returned connection) or the last
exception (which the source re-raises, possibly wrapped by
`_classify_connection_exception`; the claims never inspect the wrapper).
The `remaining` counter only bounds the recursion: the source loop always
terminates via success or `attempt == attempts`. -/
def connectWithRetryGo (outcome : Nat → Option ExcInfo) (clock : Nat → ℚ)
    (attempts : Nat) (backoff : ℚ) :
    Nat → Nat → RetryState → List ℚ → RetryState × List ℚ × Except ExcInfo Nat
  | 0, _, st, slept => (st, slept, .error ⟨"AssertionError", none⟩)
  | remaining + 1, attempt, st, slept =>
    match outcome attempt with
    | none => (recordRetrySuccess attempt (clock attempt) st, slept, .ok attempt)
    | some exc =>
      let (st', delay) := recordRetryFailure exc attempt attempts backoff (clock attempt) st
      if attempt = attempts then
        (st', slept, .error exc)
      else if delay ≠ 0 then
        connectWithRetryGo outcome clock attempts backoff remaining (attempt + 1) st'
          (slept ++ [delay])
      else
        connectWithRetryGo outcome clock attempts backoff remaining (attempt + 1) st' slept

/-- `_connect_with_retry` (pool.py:232-315): clamps the attempt budget,
refreshes the retry context, then runs the attempt loop. -/
def connectWithRetry (connectionAttempts : Int) (backoff : ℚ)
    (outcome : Nat → Option ExcInfo) (clock : Nat → ℚ) (st0 : RetryState) :
    RetryState × List ℚ × Except ExcInfo Nat :=
  let attempts := (pyMaxInt 1 connectionAttempts).toNat
  let st1 := updateRetryContext attempts backoff st0
  connectWithRetryGo outcome clock attempts backoff attempts 1 st1 []

/-! ## pool.py — `get_conn` and the bounded cache -/

/-- The `_POOL` queue (pool.py:22) plus a ledger of closed connections, so a
discard is observable.  Connections are identified by `Nat` ids. -/
structure PoolState where
  cache : List Nat
  maxsize : Int
  closed : List Nat
  deriving Repr, DecidableEq

/-- `Queue.put_nowait` followed by the rejection cleanup of `get_conn`
(pool.py:327-349): the put succeeds unless the queue is bounded and full
(`queue.Full`), in which case the connection is closed and dropped. -/
def putNowait (p : PoolState) (conn : Nat) : PoolState × Bool :=
  if p.maxsize ≤ 0 ∨ (p.cache.length : Int) < p.maxsize then
    ({ p with cache := p.cache ++ [conn] }, true)
  else
    ({ p with closed := p.closed ++ [conn] }, false)

/-- What the `with get_conn() as conn` body does with the connection: the
`cursor.execute`/`fetchall` under `Timeout` either completes, raises
`TimeoutError` when the alarm fires, or raises a driver error. -/
inductive BodyRes
  | ok
  | timeout
  | err
  deriving Repr, DecidableEq

/-- Overall outcome of one `get_conn` scope. -/
inductive GetConnOutcome
  | ok
  | timeout
  | err
  | connectFailed
  deriving Repr, DecidableEq

/-- Fate of the borrowed connection when the scope exits. -/
inductive ConnFate
  | returnedToPool
  | closedDiscarded
  deriving Repr, DecidableEq

/-- `get_conn` (pool.py:318-349) run to completion for one borrower:
non-blocking pop from the cache, `_connect_with_retry` on a miss (`connect`
is its result; `none` models the raise, which happens before the
`try`/`finally`, so no connection is released), then the `finally` block
which always attempts `put_nowait` and closes the connection only when the
pool rejects it.  The body's exception — including `TimeoutError` — is
re-raised after the `finally` block runs. -/
def getConnRun (connect : Option Nat) (body : Nat → BodyRes) (p : PoolState) :
    PoolState × GetConnOutcome × Option ConnFate :=
  let borrowed : Option (Nat × PoolState) :=
    match p.cache with
    | c :: rest => some (c, { p with cache := rest })
    | [] => connect.map fun c => (c, p)
  match borrowed with
  | none => (p, .connectFailed, none)
  | some (conn, p1) =>
    let res := body conn
    let (p2, putOk) := putNowait p1 conn
    let fate := if putOk then ConnFate.returnedToPool else ConnFate.closedDiscarded
    let outcome :=
      match res with
      | .ok => GetConnOutcome.ok
      | .timeout => GetConnOutcome.timeout
      | .err => GetConnOutcome.err
    (p2, outcome, some fate)

/-! ## sqlman.py — values, dictionaries and the store

`run_sql` receives a mutable `dict` and copies it (`params = dict(params)`).
To make that frame effect provable rather than definitional, dictionaries
live in a store of insertion-ordered association lists indexed by `Nat`
references; `run_sql` operates on references and every write names the
object it targets. -/

/-- A Python value as it appears in parameter maps and result rows. -/
inductive Val
  | vStr (s : String)
  | vInt (n : Int)
  | vRat (q : ℚ)
  deriving Repr, DecidableEq

/-- Insertion-ordered association list with `dict` semantics: lookup of the
unique binding, in-place update keeping the key's position, append of new
keys. -/
def alistGet {κ α : Type} [DecidableEq κ] : List (κ × α) → κ → Option α
  | [], _ => none
  | (k, v) :: rest, key => if k = key then some v else alistGet rest key

def alistSet {κ α : Type} [DecidableEq κ] : List (κ × α) → κ → α → List (κ × α)
  | [], key, value => [(key, value)]
  | (k, v) :: rest, key, value =>
    if k = key then (k, value) :: rest else (k, v) :: alistSet rest key value

/-- A Python `dict[str, Any]` parameter map. -/
abbrev Params := List (String × Val)

def dictGet (p : Params) (k : String) : Option Val := alistGet p k

def dictSet (p : Params) (k : String) (v : Val) : Params := alistSet p k v

/-- `dict.setdefault(k, v)` (only inserts; an existing binding survives). -/
def dictSetdefault (p : Params) (k : String) (v : Val) : Params :=
  match dictGet p k with
  | some _ => p
  | none => p ++ [(k, v)]

/-- `list(params)`: the keys in insertion order. -/
def dictKeys (p : Params) : List String := p.map Prod.fst

/-- The heap of dictionary objects; references are indices. -/
abbrev Store := List Params

def storeGet (σ : Store) (r : Nat) : Params := (σ.get? r).getD []

def storeLookup (σ : Store) (r : Nat) : Option Params := σ.get? r

def storeSet (σ : Store) (r : Nat) (p : Params) : Store := σ.set r p

/-- `dict(params)`: allocate a fresh object holding a copy of the value. -/
def storeAlloc (σ : Store) (p : Params) : Store × Nat :=
  (σ ++ [p], σ.length)

/-! ## sqlman.py — identifier and schema checks -/

def isIdentStart (c : Char) : Bool :=
  ('A' ≤ c && c ≤ 'Z') || ('a' ≤ c && c ≤ 'z') || c = '_'

def isIdentCont (c : Char) : Bool :=
  isIdentStart c || ('0' ≤ c && c ≤ '9')

/-- `_IDENT.match(s)` for `_IDENT = [A-Za-z_][A-Za-z0-9_]*$` (sqlman.py:49):
anchored at the start, and `$` also matches just before one final newline. -/
def identOk (s : String) : Bool :=
  let core :=
    match s.data.reverse with
    | '\n' :: rest => rest.reverse
    | _ => s.data
  match core with
  | [] => false
  | c :: rest => isIdentStart c && rest.all isIdentCont

/-- The error taxonomy of `run_sql` (`FileNotFoundError`, `PermissionError`,
`ValueError`, `TypeError`, `TimeoutError`, driver errors). -/
inductive SqlErr
  | notFound (name : String)
  | schemaNotAllowed (schemas : List String)
  | invalidIdentifier (s : String)
  | typeError
  | valueError (msg : String)
  | queryTimeout
  | driver (msg : String)
  deriving Repr, DecidableEq

/-- `ensure_schema_allowed` (sqlman.py:53-58).  A non-string value makes
`_IDENT.match` raise `TypeError`; an empty or malformed string is an
invalid identifier; an identifier not on the (lower-cased) allowlist is
`PermissionError`. -/
def ensureSchemaAllowed (st : Settings) (v : Val) : Except SqlErr Val :=
  match v with
  | .vStr s =>
    if ¬identOk s then .error (.invalidIdentifier s)
    else if ¬(allowedSchemaSet st).contains (lowerStr s) then .error (.schemaNotAllowed [s])
    else .ok (.vStr s)
  | _ => .error .typeError

/-- `_SCHEMA_RE.finditer` (sqlman.py:50, 61-62): every maximal identifier
immediately followed by a dot, scanning left to right, resuming after each
match's closing dot.  Duplicates are kept here; `_find_schemas` builds a
set, modelled below by deduplication. -/
def findSchemasGo : Nat → List Char → List String
  | 0, _ => []
  | _ + 1, [] => []
  | fuel + 1, c :: rest =>
    if isIdentStart c then
      match rest.drop (rest.takeWhile isIdentCont).length with
      | '.' :: tail => (⟨c :: rest.takeWhile isIdentCont⟩ : String) :: findSchemasGo fuel tail
      | _ => findSchemasGo fuel rest
    else findSchemasGo fuel rest

/-- `_find_schemas` (sqlman.py:61-62): the set of schema qualifiers found by
the textual scan.  Every step of the scan consumes at least one character,
so the input length bounds the recursion. -/
def findSchemas (sqlText : String) : List String :=
  (findSchemasGo sqlText.data.length sqlText.data).dedup

/-- `_enforce_schema_allowlist` (sqlman.py:65-72).  The source sorts the
offending names into the `PermissionError` message; the deduplicated list is
carried unsorted since no claim reads the message text. -/
def enforceSchemaAllowlist (st : Settings) (sqlText : String) : Except SqlErr Unit :=
  let disallowed :=
    (findSchemas sqlText).filter fun schema => ¬(allowedSchemaSet st).contains (lowerStr schema)
  if disallowed = [] then .ok () else .error (.schemaNotAllowed disallowed)

/-! ## sqlman.py — `run_sql` -/

/-- `Provenance` (sqlman.py:22-31).  `params` holds the dict object the
executor finalised — a reference into the store, distinct from the caller's
object. -/
structure Provenance where
  sql_or_view : String
  paramsRef : Nat
  as_of_ts : String
  row_count : Nat
  duration_ms : ℚ
  deriving Repr, DecidableEq

/-- A fetched row. -/
abbrev Row := List Val

/-- What `cursor.execute` + `fetchall` does under the `Timeout` guard. -/
inductive ExecOutcome
  | rows (rs : List Row)
  | timeout
  | failure (msg : String)

/-- The collaborators of `run_sql`: the template directory contents, the
live settings, the driver (execution oracle receiving the finalised SQL and
parameters), and the wall clock observations. -/
structure RunCtx where
  templates : String → Option String
  settings : Settings
  execF : String → Params → ExecOutcome
  now : String
  elapsedMs : ℚ

/-- The `for key in list(params)` validation loop (sqlman.py:84-86): each
key ending in `schema` is validated and written back in place. -/
def validateSchemaParams (st : Settings) : Params → List String → Except SqlErr Params
  | p, [] => .ok p
  | p, k :: ks =>
    if pyEndsWith k "schema" then
      match dictGet p k with
      | none => validateSchemaParams st p ks
      | some v =>
        match ensureSchemaAllowed st v with
        | .error e => .error e
        | .ok v' => validateSchemaParams st (dictSet p k v') ks
    else validateSchemaParams st p ks

/-- Python truthiness in `limit or settings.max_rows`: `None` and `0` fall
back to `max_rows`. -/
def pyOrInt (limit : Option Int) (dflt : Int) : Int :=
  match limit with
  | none => dflt
  | some l => if l = 0 then dflt else l

/-- `cap = min(limit or settings.max_rows, settings.max_rows)`
(sqlman.py:88). -/
def capOf (limit : Option Int) (maxRows : Int) : Int :=
  min (pyOrInt limit maxRows) maxRows

/-- `run_sql` (sqlman.py:75-109) over the store: resolve the template, scan
its text against the allowlist, copy the caller's dict into a fresh object,
validate `*schema` keys on the copy, inject or default the `limit` binding,
execute, and build the provenance around the finalised copy.  Every exit
path returns the store, so the caller's object can be inspected after
failures too. -/
def runSql (ctx : RunCtx) (σ : Store) (sqlName : String) (pRef : Nat) (limit : Option Int) :
    Store × Except SqlErr (List Row × Provenance) :=
  match ctx.templates sqlName with
  | none => (σ, .error (.notFound sqlName))
  | some sql =>
    match enforceSchemaAllowlist ctx.settings sql with
    | .error e => (σ, .error e)
    | .ok _ =>
      let (σ1, copyRef) := storeAlloc σ (storeGet σ pRef)
      match validateSchemaParams ctx.settings (storeGet σ1 copyRef)
          (dictKeys (storeGet σ1 copyRef)) with
      | .error e => (σ1, .error e)
      | .ok validated =>
        let σ2 := storeSet σ1 copyRef validated
        let cap := capOf limit ctx.settings.max_rows
        let (sqlFinal, finalised) :=
          if strContains sql ":limit" then
            (sql, dictSetdefault validated "limit" (.vInt cap))
          else
            ("SELECT * FROM ( " ++ sql ++ " ) AS t LIMIT :limit",
              dictSet validated "limit" (.vInt cap))
        let σ3 := storeSet σ2 copyRef finalised
        match ctx.execF sqlFinal finalised with
        | .timeout => (σ3, .error .queryTimeout)
        | .failure m => (σ3, .error (.driver m))
        | .rows rows =>
          (σ3, .ok (rows,
            { sql_or_view := sqlName
              paramsRef := copyRef
              as_of_ts := ctx.now
              row_count := rows.length
              duration_ms := ctx.elapsedMs }))

/-! ## sqlman.py — `ranked_multi` -/

/-- `float(row[1])`: numeric values convert exactly, numeric strings parse,
anything else raises `ValueError`. -/
def toFloatVal : Val → Option ℚ
  | .vRat q => some q
  | .vInt n => some (n : ℚ)
  | .vStr s => pyFloatSimple s

/-- `float(row[1]) if len(row) > 1 else 0.0` for the cells after the key
(sqlman.py:123); a non-convertible value raises `ValueError`. -/
def rowScoreE (cells : List Val) : Except SqlErr ℚ :=
  match cells with
  | [] => .ok 0
  | s :: _ =>
    match toFloatVal s with
    | some q => .ok q
    | none => .error (.valueError "could not convert value to float")

/-- The parsed score when it parses, used to state the merge property. -/
def rowScoreD (cells : List Val) : ℚ :=
  match rowScoreE cells with
  | .ok q => q
  | .error _ => 0

/-- The inner row loop of `ranked_multi` (sqlman.py:119-124): skip empty
rows, take `row[0]` as the key, `float(row[1])` (default `0.0`) as the
score, and keep the per-key maximum, inserting new keys at the end. -/
def mergeRows : List (Val × ℚ) → List Row → Except SqlErr (List (Val × ℚ))
  | scores, [] => .ok scores
  | scores, row :: rest =>
    match row with
    | [] => mergeRows scores rest
    | key :: cells =>
      match rowScoreE cells with
      | .error e => .error e
      | .ok score =>
        let merged :=
          match alistGet scores key with
          | some old => alistSet scores key (pyMaxQ old score)
          | none => scores ++ [(key, score)]
        mergeRows merged rest

/-- Stable insertion preserving input order among equal scores; repeated
insertion reproduces Python's stable `sorted(..., reverse=True)`. -/
def insertDesc (x : Val × ℚ) : List (Val × ℚ) → List (Val × ℚ)
  | [] => [x]
  | y :: ys => if y.2 < x.2 then x :: y :: ys else y :: insertDesc x ys

def sortDescStable (l : List (Val × ℚ)) : List (Val × ℚ) :=
  l.foldl (fun acc x => insertDesc x acc) []

/-- Python `l[:k]`, including the negative-index form. -/
def pyTake {α : Type} (k : Int) (l : List α) : List α :=
  if 0 ≤ k then l.take k.toNat else l.take (l.length - (-k).toNat)

/-- The query loop of `ranked_multi` (sqlman.py:116-124): each sub-query
runs through `run_sql` with `limit = k`; its provenance is appended in
input order and its rows merged into the running score map.  A failing
sub-query propagates immediately. -/
def rankedMultiGo (ctx : RunCtx) (k : Int) :
    Store → List (String × Nat) → List (Val × ℚ) → List Provenance →
    Store × Except SqlErr (List (Val × ℚ) × List Provenance)
  | σ, [], scores, provs => (σ, .ok (scores, provs))
  | σ, (name, pRef) :: rest, scores, provs =>
    match runSql ctx σ name pRef (some k) with
    | (σ', .error e) => (σ', .error e)
    | (σ', .ok (rows, prov)) =>
      match mergeRows scores rows with
      | .error e => (σ', .error e)
      | .ok scores' => rankedMultiGo ctx k σ' rest scores' (provs ++ [prov])

/-- `ranked_multi` (sqlman.py:112-127). -/
def rankedMulti (ctx : RunCtx) (σ : Store) (queries : List (String × Nat)) (k : Int) :
    Store × Except SqlErr (List (Val × ℚ) × List Provenance) :=
  match rankedMultiGo ctx k σ queries [] [] with
  | (σ', .error e) => (σ', .error e)
  | (σ', .ok (scores, provs)) => (σ', .ok (pyTake k (sortDescStable scores), provs))

/-! ## Concrete fixtures used by the claim theorems -/

/-- The `Settings` value produced by environment-only construction in an
empty environment (all documented defaults). -/
def defaultSettings : Settings where
  host := DEFAULT_DB_HOST
  port := DEFAULT_DB_PORT
  user := DEFAULT_DB_USER
  password := DEFAULT_DB_PASSWORD
  database := DEFAULT_DB_NAME
  max_rows := 1000
  query_timeout_s := 15
  pool_size := 8
  connection_attempts := 3
  connection_retry_backoff_s := 1 / 2
  http_token := none
  cors_origins := none
  allowed_schemas := ["public"]
  db_debug_logging := false
  backup_nodes := []
  tls_mode := none
  use_ssl := none
  tls_cafile := none
  tls_certfile := none
  tls_keyfile := none
  database_source := "environment"

/-- Settings with `max_rows = 10`, as in the spec's limit-cap scenario. -/
def execSettings : Settings := { defaultSettings with max_rows := 10 }

/-- A template directory holding `t.sql` with body `SELECT :limit AS v`. -/
def limitTemplates : String → Option String := fun name =>
  if name = "t.sql" then some "SELECT :limit AS v" else none

/-- A driver oracle returning a fixed single row. -/
def singleRowExec : String → Params → ExecOutcome := fun _ _ =>
  .rows [[.vStr "a", .vInt 1]]

/-- Executor context for the limit-cap scenarios. -/
def limitCtx : RunCtx :=
  { templates := limitTemplates, settings := execSettings
    execF := singleRowExec, now := "ts", elapsedMs := 1 }

/-- Templates for the rank-merge scenario. -/
def rankedTemplates : String → Option String := fun name =>
  if name = "one.sql" then some "SELECT one"
  else if name = "two.sql" then some "SELECT two"
  else none

/-- Driver oracle for the rank-merge scenario: `one.sql` yields
`[("alpha",1.0),("beta",0.5)]`, `two.sql` yields
`[("beta",0.9),("gamma",0.2)]`. -/
def rankedExec : String → Params → ExecOutcome := fun sql _ =>
  if strContains sql "one" then
    .rows [[.vStr "alpha", .vRat 1], [.vStr "beta", .vRat (1 / 2)]]
  else
    .rows [[.vStr "beta", .vRat (9 / 10)], [.vStr "gamma", .vRat (1 / 5)]]

/-- Executor context for the rank-merge scenario. -/
def rankedCtx : RunCtx :=
  { templates := rankedTemplates, settings := execSettings
    execF := rankedExec, now := "ts", elapsedMs := 1 }

/-- Attempt outcomes where every connection attempt fails. -/
def failDown : Nat → Option ExcInfo := fun _ => some ⟨"RuntimeError", some "down"⟩

/-- Attempt outcomes where every connection attempt succeeds. -/
def allSucceed : Nat → Option ExcInfo := fun _ => none

/-- An abstract clock: attempt `n` observes time `n`. -/
def natClock : Nat → ℚ := fun n => (n : ℚ)

/-- Decidable equality for `Except`, so concrete runs can be settled by
`decide`. -/
instance {ε α : Type} [DecidableEq ε] [DecidableEq α] : DecidableEq (Except ε α) := fun x y =>
  match x, y with
  | .ok a, .ok b =>
    if h : a = b then .isTrue (by rw [h]) else .isFalse (by intro hc; cases hc; exact h rfl)
  | .error a, .error b =>
    if h : a = b then .isTrue (by rw [h]) else .isFalse (by intro hc; cases hc; exact h rfl)
  | .ok _, .error _ => .isFalse (by intro hc; cases hc)
  | .error _, .ok _ => .isFalse (by intro hc; cases hc)

/-- `Except` success test, used to state hard-failure claims. -/
def exceptIsOk {ε α : Type} : Except ε α → Bool
  | .ok _ => true
  | .error _ => false

/-- Scores contributed for one key by a row list, parsed exactly as the
`ranked_multi` row loop parses them (`row[0]` key, `float(row[1])` or `0.0`
score); used to state the retain-the-maximum property. -/
def keyScores (key : Val) : List Row → List ℚ
  | [] => []
  | row :: rest =>
    match row with
    | [] => keyScores key rest
    | k :: cells =>
      if k = key then rowScoreD cells :: keyScores key rest
      else keyScores key rest

/-- Fold of `max` over contributed scores, seeded with the pre-existing
entry when there is one. -/
def foldMaxOpt : Option ℚ → List ℚ → Option ℚ
  | acc, [] => acc
  | none, q :: qs => foldMaxOpt (some q) qs
  | some o, q :: qs => foldMaxOpt (some (max o q)) qs

/-- A backup-node entry of one of the malformed shapes the claim lists:
it contains a colon and has an empty host before it, an empty or
non-integer port text after it, or a port outside `[1, 65535]`. -/
def malformedBackupEntry (entry : String) : Bool :=
  let candidate := pyStrip entry
  strContains candidate ":" &&
    (let host := pyStrip (rsplitColon candidate).1
     let portText := pyStrip (rsplitColon candidate).2
     host = "" || portText = "" ||
       (match pyInt portText with
        | none => true
        | some port => !(decide (1 ≤ port ∧ port ≤ 65535))))

/-! ## Claim theorems -/

/-- C3: the claimed redaction property fails on the code, and the code
contradicts its own purpose (never leak a secret value into loggable text).
The input `authorization: secret: "hunter2"` contains a sensitive fragment
of the documented shape `secret: "X"`; standalone, `_redact_sensitive_text`
redacts that very fragment (fourth conjunct), but in the authorization
context the earlier authorization pass consumes the `secret:` key, the
unquoted-key pass then finds nothing, and the literal secret `hunter2`
survives in the output (second conjunct). -/
theorem C3_redaction_leaks_secret_after_authorization :
    redactSensitiveText "authorization: secret: \"hunter2\"" =
        "authorization: <redacted> \"hunter2\"" ∧
    strContains (redactSensitiveText "authorization: secret: \"hunter2\"") "hunter2" = true ∧
    strContains "authorization: secret: \"hunter2\"" "secret: \"hunter2\"" = true ∧
    redactSensitiveText "secret: \"hunter2\"" = "secret: \"<redacted>\"" := by
  refine ⟨?_, ?_, ?_, ?_⟩ <;> decide

/-- C4: in the spec's own scenario — template body `SELECT :limit AS v`,
caller params `{"schema": "public"}` (no `limit` key), requested limit 99,
`max_rows = 10` — `run_sql` executes with bound `limit == 10`: the global
cap wins.  The finalised parameter object (reference 1, the fresh copy)
binds `limit` to 10, and the returned provenance points at that copy. -/
theorem C4_global_cap_wins :
    (runSql limitCtx [[("schema", .vStr "public")]] "t.sql" 0 (some 99)).2 =
      .ok ([[.vStr "a", .vInt 1]],
        { sql_or_view := "t.sql", paramsRef := 1, as_of_ts := "ts"
          row_count := 1, duration_ms := 1 }) ∧
    dictGet
      (storeGet (runSql limitCtx [[("schema", .vStr "public")]] "t.sql" 0 (some 99)).1 1)
      "limit" = some (.vInt 10) ∧
    capOf (some 99) execSettings.max_rows = 10 := by
  refine ⟨?_, ?_, ?_⟩ <;> decide

/-- C2 counterexample: the claim says a `limit` entry already present in the
caller-supplied map is overridden with the cap.  With caller params
`{"limit": 5}`, no requested limit, `max_rows = 10` and a template containing
`:limit`, the cap is 10, yet the executed binding stays 5 — `run_sql` uses
`setdefault`, which never overrides. -/
theorem C2_counterexample_existing_limit_survives :
    strContains "SELECT :limit AS v" ":limit" = true ∧
    capOf none execSettings.max_rows = 10 ∧
    exceptIsOk (runSql limitCtx [[("limit", .vInt 5)]] "t.sql" 0 none).2 = true ∧
    dictGet (storeGet (runSql limitCtx [[("limit", .vInt 5)]] "t.sql" 0 none).1 1)
      "limit" = some (.vInt 5) := by
  refine ⟨?_, ?_, ?_, ?_⟩ <;> decide

/-- C6 counterexample: the claim says a connect succeeding on the first
attempt leaves `recovered_at` null.  Starting from a fresh retry state with
every attempt succeeding, the very first attempt succeeds — no prior
failure exists — yet `recovered_at` is set (to the success time). -/
theorem C6_counterexample_first_attempt_success_sets_recovered_at :
    (connectWithRetry 3 (1 / 4) allSucceed natClock (defaultRetryState 3 (1 / 4))).2.2 =
      .ok 1 ∧
    (connectWithRetry 3 (1 / 4) allSucceed natClock (defaultRetryState 3 (1 / 4))).1.recovered_at =
      some 1 := by
  refine ⟨?_, ?_⟩ <;> decide

/-- C1 counterexample: the claim says a connection whose query timed out is
discarded and never handed to a later borrower.  With a one-slot pool
caching connection 7, a borrower whose body raises the query timeout exits
through `get_conn`'s `finally`, which `put_nowait`s the connection straight
back into the cache; the next borrower then receives connection 7 (its body
observes id 7). -/
theorem C1_counterexample_timed_out_connection_is_reissued :
    getConnRun none (fun _ => .timeout) { cache := [7], maxsize := 1, closed := [] } =
      ({ cache := [7], maxsize := 1, closed := [] }, .timeout, some .returnedToPool) ∧
    (getConnRun none (fun c => if c = 7 then .ok else .err)
        { cache := [7], maxsize := 1, closed := [] }).2.1 = .ok := by
  refine ⟨?_, ?_⟩ <;> decide

/-- The delay returned by `_record_retry_failure` is `0` once the final
attempt has failed, and the exponential delay before that. -/
theorem recordRetryFailure_delay (exc : ExcInfo) (attempt maxA : Nat) (backoff : ℚ)
    (now : ℚ) (st : RetryState) :
    (recordRetryFailure exc attempt maxA backoff now st).2 =
      if maxA ≤ attempt then 0 else expBackoffDelay backoff attempt := by
  unfold recordRetryFailure
  dsimp only
  rw [apply_ite Prod.snd]
  dsimp only
  rw [ite_self]

/-- For the non-negative backoffs `Settings` admits, the exponential delay
is literally `backoff * 2 ^ (attempt - 1)`. -/
theorem expBackoffDelay_eq (backoff : ℚ) (attempt : Nat) (hb : 0 ≤ backoff) :
    expBackoffDelay backoff attempt = backoff * 2 ^ (attempt - 1) := by
  unfold expBackoffDelay
  split
  · next h =>
    have hz : backoff = 0 := le_antisymm h hb
    simp [hz]
  · rfl

/-- C7: the delay recorded (and slept) after the `attempt`-th failure is
`backoff * 2^(attempt-1)`, and `0` after the final attempt; concretely, for
`connection_attempts = 3` and `backoff = 0.25`, starting from a fresh retry
state with every attempt failing, the slept sequence is exactly
`[0.25, 0.5]` and the final state has `attempts = 3`, `exhausted = true`
and `recovered_at` null. -/
theorem C7_exponential_backoff_schedule :
    (∀ (backoff : ℚ) (attempt maxA : Nat) (exc : ExcInfo) (now : ℚ) (st : RetryState),
      0 ≤ backoff →
      (attempt < maxA →
        (recordRetryFailure exc attempt maxA backoff now st).2 =
          backoff * 2 ^ (attempt - 1)) ∧
      (maxA ≤ attempt →
        (recordRetryFailure exc attempt maxA backoff now st).2 = 0)) ∧
    (connectWithRetry 3 (1 / 4) failDown natClock (defaultRetryState 3 (1 / 4))).2.1 =
      [1 / 4, 1 / 2] ∧
    (connectWithRetry 3 (1 / 4) failDown natClock (defaultRetryState 3 (1 / 4))).1.attempts = 3 ∧
    (connectWithRetry 3 (1 / 4) failDown natClock
        (defaultRetryState 3 (1 / 4))).1.exhausted = true ∧
    (connectWithRetry 3 (1 / 4) failDown natClock
        (defaultRetryState 3 (1 / 4))).1.recovered_at = none := by
  refine ⟨?_, ?_, ?_, ?_, ?_⟩
  · intro backoff attempt maxA exc now st hb
    refine ⟨fun hlt => ?_, fun hle => ?_⟩
    · rw [recordRetryFailure_delay, if_neg (by omega), expBackoffDelay_eq backoff attempt hb]
    · rw [recordRetryFailure_delay, if_pos hle]
  all_goals
    norm_num [connectWithRetry, connectWithRetryGo, updateRetryContext, recordRetryFailure,
      expBackoffDelay, defaultRetryState, failDown, natClock, pyMaxQ, pyMaxInt, pyRound3,
      Int.toNat]

/-- Closed instantiation of the backoff-delay formula: the delay after the
second of three failing attempts with `backoff = 0.25` is `0.25 * 2 = 0.5`. -/
theorem C7_exponential_backoff_schedule_witness :
    (recordRetryFailure ⟨"RuntimeError", some "down"⟩ 2 3 (1 / 4) 0
        (defaultRetryState 3 (1 / 4))).2 = (1 / 4) * 2 ^ (2 - 1) :=
  (C7_exponential_backoff_schedule.1 (1 / 4) 2 3 ⟨"RuntimeError", some "down"⟩ 0
    (defaultRetryState 3 (1 / 4)) (by norm_num)).1 (by omega)

/-- Any `.ok` result of the attempt loop ends in a state whose
`recovered_at` is the success time, with bookkeeping cleared. -/
theorem connectWithRetryGo_ok_recovered (outcome : Nat → Option ExcInfo)
    (clock : Nat → ℚ) (attempts : Nat) (backoff : ℚ) :
    ∀ (fuel attempt : Nat) (st st' : RetryState) (slept slept' : List ℚ) (n : Nat),
      connectWithRetryGo outcome clock attempts backoff fuel attempt st slept =
        (st', slept', .ok n) →
      st'.recovered_at = some (clock n) ∧ st'.in_progress = false ∧
        st'.exhausted = false ∧ st'.attempts = n := by
  intro fuel
  induction fuel with
  | zero => intro attempt st st' slept slept' n h; cases h
  | succ fuel ih =>
    intro attempt st st' slept slept' n h
    unfold connectWithRetryGo at h
    cases houtcome : outcome attempt with
    | none =>
      rw [houtcome] at h
      injection h with h1 h2
      injection h2 with h2 h3
      injection h3 with h3
      subst h1 h3
      exact ⟨rfl, rfl, rfl, rfl⟩
    | some exc =>
      rw [houtcome] at h
      dsimp only at h
      by_cases hfin : attempt = attempts
      · rw [if_pos hfin] at h
        injection h with h1 h2
        injection h2 with h2 h3
        cases h3
      · rw [if_neg hfin] at h
        split at h
        · exact ih _ _ _ _ _ _ h
        · exact ih _ _ _ _ _ _ h

/-- C6 amended: `recovered_at` is set non-null on every successful connect —
to the time of the succeeding attempt — whether or not a prior attempt
failed; in particular a first-attempt success also sets it (the claimed
"null on first-attempt success" does not hold). -/
theorem C6_amended_recovered_at_set_on_every_success
    (connectionAttempts : Int) (backoff : ℚ) (outcome : Nat → Option ExcInfo)
    (clock : Nat → ℚ) (st0 st' : RetryState) (slept : List ℚ) (n : Nat)
    (h : connectWithRetry connectionAttempts backoff outcome clock st0 =
      (st', slept, .ok n)) :
    st'.recovered_at = some (clock n) ∧ st'.in_progress = false ∧
      st'.exhausted = false ∧ st'.attempts = n :=
  connectWithRetryGo_ok_recovered outcome clock _ backoff _ 1 _ st' [] slept n h

/-- Closed instantiation: every attempt succeeding, the connect succeeds on
attempt 1 and `recovered_at` is set to its time. -/
theorem C6_amended_recovered_at_set_on_every_success_witness :
    (connectWithRetry 3 (1 / 4) allSucceed natClock
        (defaultRetryState 3 (1 / 4))).1.recovered_at = some (natClock 1) :=
  (C6_amended_recovered_at_set_on_every_success 3 (1 / 4) allSucceed natClock
    (defaultRetryState 3 (1 / 4))
    (connectWithRetry 3 (1 / 4) allSucceed natClock (defaultRetryState 3 (1 / 4))).1
    (connectWithRetry 3 (1 / 4) allSucceed natClock (defaultRetryState 3 (1 / 4))).2.1
    1 rfl).1

/-- C1 amended: when the body's query times out, `get_conn`'s `finally`
returns the borrowed connection to the cache whenever the cache has free
capacity — so it can be handed to a later borrower — and closes and
discards it only when the bounded cache rejects the return.  This holds for
a connection popped from the cache and for one freshly established on a
cache miss alike. -/
theorem C1_amended_timeout_connection_fate (p : PoolState) (connect : Option Nat)
    (body : Nat → BodyRes) (c : Nat) (hbody : body c = .timeout) :
    (∀ rest, p.cache = c :: rest →
      ((p.maxsize ≤ 0 ∨ (rest.length : Int) < p.maxsize) →
        getConnRun connect body p =
          ({ p with cache := rest ++ [c] }, .timeout, some .returnedToPool)) ∧
      (0 < p.maxsize → p.maxsize ≤ (rest.length : Int) →
        getConnRun connect body p =
          ({ p with cache := rest, closed := p.closed ++ [c] }, .timeout,
            some .closedDiscarded))) ∧
    (p.cache = [] → connect = some c →
      getConnRun connect body p =
        ({ p with cache := [c] }, .timeout, some .returnedToPool)) := by
  refine ⟨?_, ?_⟩
  · intro rest hcache
    constructor
    · intro hroom
      simp only [getConnRun, putNowait, hcache, hbody]
      rw [if_pos hroom]
      rfl
    · intro hpos hfull
      simp only [getConnRun, putNowait, hcache, hbody]
      rw [if_neg (by push_neg; exact ⟨hpos, hfull⟩)]
      rfl
  · intro hcache hconnect
    simp only [getConnRun, hconnect, hcache]
    dsimp only [Option.map]
    simp only [putNowait, hbody, hcache, List.length_nil, Nat.cast_zero]
    rw [if_pos (by omega)]
    rfl

/-- Closed instantiation: one-slot pool caching connection 7, timing-out
body; the connection is returned (cache below capacity after the pop). -/
theorem C1_amended_timeout_connection_fate_witness :
    getConnRun none (fun _ => BodyRes.timeout) { cache := [7], maxsize := 1, closed := [] } =
      ({ cache := [7], maxsize := 1, closed := [] }, .timeout, some .returnedToPool) := by
  have h := (C1_amended_timeout_connection_fate
    { cache := [7], maxsize := 1, closed := [] } none (fun _ => BodyRes.timeout) 7
    rfl).1 [] rfl
  exact h.1 (by right; decide)

/-- Environment-only construction always stamps the provenance flag
`database_source = "environment"` (`model_post_init`). -/
theorem settingsFromEnv_ok_source (env : EnvMap) (s : Settings)
    (h : settingsFromEnv env = .ok s) : s.database_source = "environment" := by
  unfold settingsFromEnv at h
  dsimp only at h
  by_cases h1 : envIntOrDefault env "DB_CONNECTION_RETRIES" 3 < 1
  · rw [if_pos h1] at h; cases h
  · rw [if_neg h1] at h
    by_cases h2 : envFloatOrDefault env "DB_CONNECTION_RETRY_BACKOFF_S" (1 / 2) < 0
    · rw [if_pos h2] at h; cases h
    · rw [if_neg h2] at h
      by_cases h3 : splitCsv (envRead env "ALLOWED_SCHEMAS") ["public"] = []
      · rw [if_pos h3] at h; cases h
      · rw [if_neg h3] at h
        cases h4 : parseBackupNodes (envRead env "DB_BACKUP_NODES") with
        | error e => rw [h4] at h; cases h
        | ok bn =>
          rw [h4] at h
          cases h5 : validateTlsMode (envRead env "DB_TLSMODE") with
          | error e => rw [h5] at h; cases h
          | ok tm =>
            rw [h5] at h
            cases h6 : validateUseSsl (envRead env "DB_USE_SSL") with
            | error e => rw [h6] at h; cases h
            | ok us =>
              rw [h6] at h
              cases h
              rfl

/-- C8: after `apply_database_overrides`, a `reload_from_environment` against
an unchanged environment yields exactly the `Settings` that environment-only
construction produces — in particular the five connection fields are
restored byte-for-byte — and the provenance flag is back to
`"environment"`. -/
theorem C8_reload_restores_environment_values (env : EnvMap) (s : Settings)
    (o : DatabaseOverrides) (fresh : Settings)
    (h : settingsFromEnv env = .ok fresh) :
    reloadFromEnvironment (applyDatabaseOverrides s o) env = .ok fresh ∧
    (applyDatabaseOverrides s o).database_source = "runtime" ∧
    fresh.database_source = "environment" := by
  refine ⟨?_, rfl, settingsFromEnv_ok_source env fresh h⟩
  unfold reloadFromEnvironment
  rw [h]

/-- `settingsFromEnv` on the empty environment produces the documented
defaults. -/
theorem settingsFromEnv_empty : settingsFromEnv [] = .ok defaultSettings := by
  norm_num [settingsFromEnv, envOrDefault, envIntOrDefault, envFloatOrDefault, envBool,
    envRead, envLookup, splitCsv, parseBackupNodes, validateTlsMode, validateUseSsl,
    validateOptionalPath, defaultSettings, pyStrip, pyStripList, isPySpace]

/-- Closed instantiation of C8: overriding the default settings with a
runtime database target and reloading from the (empty) environment restores
the default construction. -/
theorem C8_reload_restores_environment_values_witness :
    reloadFromEnvironment
        (applyDatabaseOverrides defaultSettings
          { host := "h2", port := 5434, user := "u2", password := "p2", database := "d2" })
        [] = .ok defaultSettings ∧
    defaultSettings.database_source = "environment" :=
  ⟨(C8_reload_restores_environment_values [] defaultSettings
      { host := "h2", port := 5434, user := "u2", password := "p2", database := "d2" }
      defaultSettings settingsFromEnv_empty).1,
    (C8_reload_restores_environment_values [] defaultSettings
      { host := "h2", port := 5434, user := "u2", password := "p2", database := "d2" }
      defaultSettings settingsFromEnv_empty).2.2⟩

/-- Any malformed backup-node entry makes `_parse_backup_nodes`'s entry step
raise. -/
theorem parseBackupEntry_error_of_malformed (entry : String)
    (h : malformedBackupEntry entry = true) :
    ∃ msg, parseBackupEntry entry = .error msg := by
  unfold malformedBackupEntry at h
  rw [Bool.and_eq_true] at h
  obtain ⟨hcolon, hrest⟩ := h
  have hne : ¬(pyStrip entry = "") := by
    intro he
    rw [he] at hcolon
    exact absurd hcolon (by decide)
  unfold parseBackupEntry
  rw [if_neg hne]
  rw [hcolon]
  dsimp only
  by_cases hhost : pyStrip (rsplitColon (pyStrip entry)).1 = ""
  · rw [if_pos hhost]
    exact ⟨_, rfl⟩
  · rw [if_neg hhost]
    by_cases hport : pyStrip (rsplitColon (pyStrip entry)).2 = ""
    · rw [if_pos hport]
      exact ⟨_, rfl⟩
    · rw [if_neg hport]
      cases hint : pyInt (pyStrip (rsplitColon (pyStrip entry)).2) with
      | none =>
        exact ⟨_, rfl⟩
      | some port =>
        have hrest2 : ((decide (pyStrip (rsplitColon (pyStrip entry)).1 = "") ||
            decide (pyStrip (rsplitColon (pyStrip entry)).2 = "")) ||
              (match pyInt (pyStrip (rsplitColon (pyStrip entry)).2) with
                | none => true
                | some port => !decide (1 ≤ port ∧ port ≤ 65535))) = true := hrest
        rw [hint] at hrest2
        simp only [decide_eq_false hhost, decide_eq_false hport, Bool.or_self,
          Bool.false_or, Bool.not_eq_true', decide_eq_false_iff_not] at hrest2
        exact ⟨"DB_BACKUP_NODES ports must be between 1 and 65535",
          by simp [hhost, hrest2]⟩

/-- A malformed entry anywhere in the list makes the whole parse raise (the
first failing entry wins, but any failure is fatal). -/
theorem parseBackupNodesGo_error (entries : List String) (entry : String)
    (hmem : entry ∈ entries) (hmal : malformedBackupEntry entry = true) :
    ∃ msg, parseBackupNodesGo entries = .error msg := by
  induction entries with
  | nil => cases hmem
  | cons head rest ih =>
    unfold parseBackupNodesGo
    rcases List.mem_cons.mp hmem with heq | hmem'
    · subst heq
      obtain ⟨msg, hmsg⟩ := parseBackupEntry_error_of_malformed entry hmal
      rw [hmsg]
      exact ⟨msg, rfl⟩
    · cases hhead : parseBackupEntry head with
      | error e => exact ⟨e, rfl⟩
      | ok v =>
        obtain ⟨msg, hmsg⟩ := ih hmem'
        rw [hmsg]
        exact ⟨msg, rfl⟩

/-- When the structural gates pass, a backup-node parse failure is a
`Settings` construction failure. -/
theorem settingsFromEnv_error_of_backup_nodes (env : EnvMap) (msg : String)
    (h1 : ¬(envIntOrDefault env "DB_CONNECTION_RETRIES" 3 < 1))
    (h2 : ¬(envFloatOrDefault env "DB_CONNECTION_RETRY_BACKOFF_S" (1 / 2) < 0))
    (h3 : ¬(splitCsv (envRead env "ALLOWED_SCHEMAS") ["public"] = []))
    (h : parseBackupNodes (envRead env "DB_BACKUP_NODES") = .error msg) :
    settingsFromEnv env = .error msg := by
  unfold settingsFromEnv
  dsimp only
  rw [if_neg h1, if_neg h2, if_neg h3, h]

/-- C9: every malformed backup-node entry — empty host before the colon,
empty or non-integer port text after it, or an out-of-range port — makes
`_parse_backup_nodes` raise rather than fall back to a default; concretely,
`":5433"`, `"host:"` and `"host:999999"` each raise with the documented
message, and `Settings` construction from an environment carrying them
fails. -/
theorem C9_malformed_backup_nodes_raise :
    (∀ (raw entry : String), entry ∈ pySplit raw ',' →
      malformedBackupEntry entry = true →
      ∃ msg, parseBackupNodes (some raw) = .error msg) ∧
    parseBackupNodes (some ":5433") =
      .error "DB_BACKUP_NODES entries must include a hostname before the colon" ∧
    parseBackupNodes (some "host:") =
      .error "DB_BACKUP_NODES entries must include a port number after the colon" ∧
    parseBackupNodes (some "host:999999") =
      .error "DB_BACKUP_NODES ports must be between 1 and 65535" ∧
    settingsFromEnv [("DB_BACKUP_NODES", ":5433")] =
      .error "DB_BACKUP_NODES entries must include a hostname before the colon" := by
  refine ⟨?_, by decide, by decide, by decide, ?_⟩
  · intro raw entry hmem hmal
    by_cases hraw : raw = ""
    · subst hraw
      have : entry = "" := by
        have h' : entry ∈ ([""] : List String) := by
          simpa [pySplit, splitOnCharGo] using hmem
        simpa using h'
      rw [this] at hmal
      exact absurd hmal (by decide)
    · simp only [parseBackupNodes]
      rw [if_neg hraw]
      exact parseBackupNodesGo_error (pySplit raw ',') entry hmem hmal
  · refine settingsFromEnv_error_of_backup_nodes _ _ (by decide) ?_ (by decide) (by decide)
    have h : envFloatOrDefault [("DB_BACKUP_NODES", ":5433")]
        "DB_CONNECTION_RETRY_BACKOFF_S" (1 / 2) = 1 / 2 := rfl
    rw [h]
    norm_num

/-- Closed instantiation of C9's universal part at the entry `":5433"`. -/
theorem C9_malformed_backup_nodes_raise_witness :
    ∃ msg, parseBackupNodes (some ":5433") = .error msg :=
  C9_malformed_backup_nodes_raise.1 ":5433" ":5433" (by decide) (by decide)

/-! Store and association-list lemmas for the `run_sql` frame and limit
properties. -/

theorem storeLookup_append_lt (σ : Store) (p : Params) (r : Nat) (h : r < σ.length) :
    storeLookup (σ ++ [p]) r = storeLookup σ r :=
  List.get?_append h

theorem storeGet_alloc_self (σ : Store) (p : Params) :
    storeGet (σ ++ [p]) σ.length = p := by
  unfold storeGet
  rw [List.get?_concat_length]
  rfl

theorem storeLookup_set_ne (σ : Store) (r r' : Nat) (p : Params) (h : r ≠ r') :
    storeLookup (storeSet σ r p) r' = storeLookup σ r' :=
  List.get?_set_ne p σ h

theorem storeGet_set_self (σ : Store) (r : Nat) (p : Params) (h : r < σ.length) :
    storeGet (storeSet σ r p) r = p := by
  unfold storeGet storeSet
  rw [List.get?_set_eq_of_lt p h]
  rfl

theorem alistGet_append_right {κ α : Type} [DecidableEq κ] (l : List (κ × α)) (k : κ) (x : α)
    (h : alistGet l k = none) : alistGet (l ++ [(k, x)]) k = some x := by
  induction l with
  | nil => simp [alistGet]
  | cons kv rest ih =>
    obtain ⟨k1, v1⟩ := kv
    simp only [alistGet, List.cons_append] at h ⊢
    by_cases hk : k1 = k
    · rw [if_pos hk] at h
      cases h
    · rw [if_neg hk] at h ⊢
      exact ih h

/-- `dict.setdefault` semantics on the lookup of the same key: a present
binding survives, an absent one is filled with the default. -/
theorem dictGet_setdefault_self (p : Params) (k : String) (x : Val) :
    dictGet (dictSetdefault p k x) k =
      match dictGet p k with
      | some w => some w
      | none => some x := by
  unfold dictSetdefault
  cases h : dictGet p k with
  | some w => simp [h]
  | none => simpa [h] using alistGet_append_right p k x h

/-- C2 amended: with `:limit` present in the template text, `run_sql` binds
`limit` to `cap = min(requested or max_rows, max_rows)` only when the
(validated) caller-supplied map has no `limit` key; an existing `limit`
entry is left untouched (`setdefault`, not override).  The binding is read
off the finalised parameter object — the fresh copy at reference
`σ.length` — which every exit path of the execution step leaves in the
store. -/
theorem C2_amended_limit_setdefault (ctx : RunCtx) (σ : Store) (name sql : String)
    (pRef : Nat) (limit : Option Int) (v : Params)
    (htpl : ctx.templates name = some sql)
    (hallow : enforceSchemaAllowlist ctx.settings sql = .ok ())
    (hval : validateSchemaParams ctx.settings (storeGet σ pRef)
      (dictKeys (storeGet σ pRef)) = .ok v)
    (hlim : strContains sql ":limit" = true) :
    dictGet (storeGet (runSql ctx σ name pRef limit).1 σ.length) "limit" =
      match dictGet v "limit" with
      | some w => some w
      | none => some (.vInt (capOf limit ctx.settings.max_rows)) := by
  unfold runSql
  rw [htpl]
  dsimp only
  rw [hallow]
  dsimp only [storeAlloc]
  rw [storeGet_alloc_self σ (storeGet σ pRef), hval]
  dsimp only
  rw [hlim]
  simp only [reduceIte]
  have hlt : σ.length < (storeSet (σ ++ [storeGet σ pRef]) σ.length v).length := by
    unfold storeSet
    rw [List.length_set, List.length_append]
    simp
  cases hexec : ctx.execF sql (dictSetdefault v "limit"
      (.vInt (capOf limit ctx.settings.max_rows))) with
  | rows rows =>
    dsimp only
    rw [storeGet_set_self _ _ _ hlt]
    exact dictGet_setdefault_self v "limit" _
  | timeout =>
    dsimp only
    rw [storeGet_set_self _ _ _ hlt]
    exact dictGet_setdefault_self v "limit" _
  | failure m =>
    dsimp only
    rw [storeGet_set_self _ _ _ hlt]
    exact dictGet_setdefault_self v "limit" _

/-- Closed instantiation of C2's amended claim at the counterexample input:
caller map `{"limit": 5}`, cap 10, executed binding stays 5. -/
theorem C2_amended_limit_setdefault_witness :
    dictGet (storeGet (runSql limitCtx [[("limit", .vInt 5)]] "t.sql" 0 none).1 1)
        "limit" = some (.vInt 5) := by
  have h := C2_amended_limit_setdefault limitCtx [[("limit", .vInt 5)]] "t.sql"
    "SELECT :limit AS v" 0 none [("limit", .vInt 5)] rfl (by decide) (by decide) (by decide)
  simpa using h

/-- C10: `run_sql` never mutates the caller-supplied parameter object: on
every exit path — missing template, disallowed schema, invalid identifier,
timeout, driver failure or success — the store still maps the caller's
reference to its original value, and on success the provenance's parameter
object is the freshly allocated copy, not the caller's object. -/
theorem C10_run_sql_never_mutates_caller_params (ctx : RunCtx) (σ : Store)
    (name : String) (pRef : Nat) (limit : Option Int) (h : pRef < σ.length) :
    storeLookup (runSql ctx σ name pRef limit).1 pRef = storeLookup σ pRef ∧
    ∀ rows prov, (runSql ctx σ name pRef limit).2 = .ok (rows, prov) →
      prov.paramsRef = σ.length ∧ prov.paramsRef ≠ pRef := by
  have hne : σ.length ≠ pRef := by omega
  unfold runSql
  cases htpl : ctx.templates name with
  | none => exact ⟨rfl, by intro rows prov hh; cases hh⟩
  | some sql =>
    dsimp only
    cases hallow : enforceSchemaAllowlist ctx.settings sql with
    | error e => exact ⟨rfl, by intro rows prov hh; cases hh⟩
    | ok u =>
      dsimp only [storeAlloc]
      have hkeep1 : storeLookup (σ ++ [storeGet σ pRef]) pRef = storeLookup σ pRef :=
        storeLookup_append_lt σ _ pRef h
      cases hval : validateSchemaParams ctx.settings
          (storeGet (σ ++ [storeGet σ pRef]) σ.length)
          (dictKeys (storeGet (σ ++ [storeGet σ pRef]) σ.length)) with
      | error e =>
        exact ⟨hkeep1, by intro rows prov hh; cases hh⟩
      | ok v =>
        dsimp only
        have hkeep2 : ∀ q, storeLookup
            (storeSet (storeSet (σ ++ [storeGet σ pRef]) σ.length v) σ.length q) pRef =
              storeLookup σ pRef := by
          intro q
          rw [storeLookup_set_ne _ _ _ _ hne, storeLookup_set_ne _ _ _ _ hne, hkeep1]
        cases hcontains : strContains sql ":limit" with
        | true =>
          rw [if_pos rfl]
          cases hexec : ctx.execF sql
              (dictSetdefault v "limit" (.vInt (capOf limit ctx.settings.max_rows))) with
          | rows rows => exact ⟨hkeep2 _, by intro r p hh; cases hh; exact ⟨rfl, hne⟩⟩
          | timeout => exact ⟨hkeep2 _, by intro r p hh; cases hh⟩
          | failure m => exact ⟨hkeep2 _, by intro r p hh; cases hh⟩
        | false =>
          rw [if_neg (by simp)]
          cases hexec : ctx.execF ("SELECT * FROM ( " ++ sql ++ " ) AS t LIMIT :limit")
              (dictSet v "limit" (.vInt (capOf limit ctx.settings.max_rows))) with
          | rows rows => exact ⟨hkeep2 _, by intro r p hh; cases hh; exact ⟨rfl, hne⟩⟩
          | timeout => exact ⟨hkeep2 _, by intro r p hh; cases hh⟩
          | failure m => exact ⟨hkeep2 _, by intro r p hh; cases hh⟩

/-- Closed instantiation of C10 at the cap scenario: the caller's dict is
untouched and the provenance points at the copy. -/
theorem C10_run_sql_never_mutates_caller_params_witness :
    storeLookup (runSql limitCtx [[("schema", .vStr "public")]] "t.sql" 0 (some 99)).1 0 =
      storeLookup [[("schema", .vStr "public")]] 0 :=
  (C10_run_sql_never_mutates_caller_params limitCtx [[("schema", .vStr "public")]]
    "t.sql" 0 (some 99) (by decide)).1

/-! Association-list and merge lemmas for `ranked_multi`. -/

theorem pyMaxQ_eq_max (a b : ℚ) : pyMaxQ a b = max a b := by
  by_cases h : a < b
  · simp [pyMaxQ, h, max_eq_right h.le]
  · simp [pyMaxQ, h, max_eq_left (not_lt.mp h)]

theorem alistGet_set_self {κ α : Type} [DecidableEq κ] (l : List (κ × α)) (k : κ) (x : α) :
    alistGet (alistSet l k x) k = some x := by
  induction l with
  | nil => simp [alistSet, alistGet]
  | cons kv rest ih =>
    obtain ⟨k1, v1⟩ := kv
    by_cases hk : k1 = k
    · simp [alistSet, alistGet, hk]
    · simp only [alistSet, alistGet, if_neg hk]
      exact ih

theorem alistGet_set_ne {κ α : Type} [DecidableEq κ] (l : List (κ × α)) (k k' : κ) (x : α)
    (h : k ≠ k') : alistGet (alistSet l k x) k' = alistGet l k' := by
  induction l with
  | nil => simp [alistSet, alistGet, h]
  | cons kv rest ih =>
    obtain ⟨k1, v1⟩ := kv
    by_cases hk : k1 = k
    · subst hk
      simp [alistSet, alistGet, h]
    · simp only [alistSet, alistGet, if_neg hk]
      rw [ih]

theorem alistGet_append_single_ne {κ α : Type} [DecidableEq κ] (l : List (κ × α))
    (k k' : κ) (x : α) (h : k ≠ k') :
    alistGet (l ++ [(k, x)]) k' = alistGet l k' := by
  induction l with
  | nil => simp [alistGet, h]
  | cons kv rest ih =>
    obtain ⟨k1, v1⟩ := kv
    simp only [List.cons_append, alistGet]
    by_cases hk : k1 = k'
    · simp [hk]
    · simp only [if_neg hk]
      exact ih

/-- The row loop of `ranked_multi` computes, for every key, the maximum of
the scores the rows contribute for it, folded on top of any pre-existing
entry (first-seen score as the seed). -/
theorem mergeRows_max (rows : List Row) : ∀ (scores m : List (Val × ℚ)),
    mergeRows scores rows = .ok m → ∀ key,
      alistGet m key = foldMaxOpt (alistGet scores key) (keyScores key rows) := by
  induction rows with
  | nil =>
    intro scores m h key
    cases h
    simp [keyScores, foldMaxOpt]
  | cons row rest ih =>
    intro scores m h key
    cases row with
    | nil =>
      unfold mergeRows at h
      have hh := ih scores m h key
      simpa [keyScores] using hh
    | cons c cells =>
      unfold mergeRows at h
      dsimp only at h
      cases hsE : rowScoreE cells with
      | error e =>
        rw [hsE] at h
        cases h
      | ok q =>
        rw [hsE] at h
        dsimp only at h
        have hparse : rowScoreD cells = q := by
          unfold rowScoreD
          rw [hsE]
        by_cases hkey : c = key
        · subst hkey
          cases hold : alistGet scores c with
          | some old =>
            rw [hold] at h
            have hh := ih _ m h c
            rw [alistGet_set_self] at hh
            rw [hh]
            simp only [keyScores, if_pos rfl, hparse, hold, foldMaxOpt, pyMaxQ_eq_max]
          | none =>
            rw [hold] at h
            have hh := ih _ m h c
            rw [alistGet_append_right scores c q hold] at hh
            rw [hh]
            simp only [keyScores, if_pos rfl, hparse, hold, foldMaxOpt]
        · cases hold : alistGet scores c with
          | some old =>
            rw [hold] at h
            have hh := ih _ m h key
            rw [alistGet_set_ne _ _ _ _ hkey] at hh
            rw [hh]
            simp [keyScores, hkey]
          | none =>
            rw [hold] at h
            have hh := ih _ m h key
            rw [alistGet_append_single_ne _ _ _ _ hkey] at hh
            rw [hh]
            simp [keyScores, hkey]

/-- Membership in a stable descending insertion. -/
theorem mem_insertDesc (x z : Val × ℚ) (l : List (Val × ℚ)) :
    z ∈ insertDesc x l ↔ z = x ∨ z ∈ l := by
  induction l with
  | nil => simp [insertDesc]
  | cons y ys ih =>
    by_cases hc : y.2 < x.2
    · simp only [insertDesc, if_pos hc, List.mem_cons]
    · simp only [insertDesc, if_neg hc, List.mem_cons, ih]
      tauto

/-- Stable descending insertion preserves sortedness by descending score. -/
theorem insertDesc_sorted (x : Val × ℚ) (l : List (Val × ℚ))
    (h : l.Pairwise (fun a b => b.2 ≤ a.2)) :
    (insertDesc x l).Pairwise (fun a b => b.2 ≤ a.2) := by
  induction l with
  | nil => simp [insertDesc]
  | cons y ys ih =>
    rcases List.pairwise_cons.mp h with ⟨hy, hys⟩
    by_cases hc : y.2 < x.2
    · rw [insertDesc, if_pos hc]
      refine List.pairwise_cons.mpr ⟨?_, h⟩
      intro z hz
      rcases List.mem_cons.mp hz with rfl | hz'
      · exact hc.le
      · exact (hy z hz').trans hc.le
    · rw [insertDesc, if_neg hc]
      refine List.pairwise_cons.mpr ⟨?_, ih hys⟩
      intro z hz
      rcases (mem_insertDesc x z ys).mp hz with rfl | hz'
      · exact not_lt.mp hc
      · exact hy z hz'

/-- The fold of stable insertions is sorted by descending score. -/
theorem sortDescStable_sorted (l : List (Val × ℚ)) :
    (sortDescStable l).Pairwise (fun a b => b.2 ≤ a.2) := by
  have haux : ∀ (l acc : List (Val × ℚ)), acc.Pairwise (fun a b => b.2 ≤ a.2) →
      (l.foldl (fun acc x => insertDesc x acc) acc).Pairwise (fun a b => b.2 ≤ a.2) := by
    intro l
    induction l with
    | nil => intro acc hacc; simpa using hacc
    | cons x xs ih =>
      intro acc hacc
      rw [List.foldl_cons]
      exact ih _ (insertDesc_sorted x acc hacc)
  exact haux l [] (by simp)

/-- A successful `run_sql` stamps its provenance with the template name. -/
theorem runSql_ok_name (ctx : RunCtx) (σ : Store) (name : String) (pRef : Nat)
    (limit : Option Int) (σ' : Store) (rows : List Row) (prov : Provenance)
    (h : runSql ctx σ name pRef limit = (σ', .ok (rows, prov))) :
    prov.sql_or_view = name := by
  unfold runSql at h
  cases htpl : ctx.templates name with
  | none =>
    rw [htpl] at h
    cases h
  | some sql =>
    rw [htpl] at h
    dsimp only at h
    cases hallow : enforceSchemaAllowlist ctx.settings sql with
    | error e => rw [hallow] at h; cases h
    | ok u =>
      rw [hallow] at h
      dsimp only [storeAlloc] at h
      cases hval : validateSchemaParams ctx.settings
          (storeGet (σ ++ [storeGet σ pRef]) σ.length)
          (dictKeys (storeGet (σ ++ [storeGet σ pRef]) σ.length)) with
      | error e => rw [hval] at h; cases h
      | ok v =>
        rw [hval] at h
        dsimp only at h
        cases hcontains : strContains sql ":limit" with
        | true =>
          rw [hcontains] at h
          rw [if_pos rfl] at h
          dsimp only at h
          cases hexec : ctx.execF sql
              (dictSetdefault v "limit" (.vInt (capOf limit ctx.settings.max_rows))) with
          | rows rs =>
            rw [hexec] at h
            dsimp only at h
            injection h with h1 h2
            injection h2 with h2
            injection h2 with h2 h3
            rw [← h3]
          | timeout =>
            rw [hexec] at h
            dsimp only at h
            injection h with h1 h2
            cases h2
          | failure m =>
            rw [hexec] at h
            dsimp only at h
            injection h with h1 h2
            cases h2
        | false =>
          rw [hcontains] at h
          rw [if_neg (by simp)] at h
          dsimp only at h
          cases hexec : ctx.execF ("SELECT * FROM ( " ++ sql ++ " ) AS t LIMIT :limit")
              (dictSet v "limit" (.vInt (capOf limit ctx.settings.max_rows))) with
          | rows rs =>
            rw [hexec] at h
            dsimp only at h
            injection h with h1 h2
            injection h2 with h2
            injection h2 with h2 h3
            rw [← h3]
          | timeout =>
            rw [hexec] at h
            dsimp only at h
            injection h with h1 h2
            cases h2
          | failure m =>
            rw [hexec] at h
            dsimp only at h
            injection h with h1 h2
            cases h2

/-- The query loop of `ranked_multi` accumulates one provenance per
sub-query, named after it, in input order. -/
theorem rankedMultiGo_prov_names (ctx : RunCtx) (k : Int) :
    ∀ (queries : List (String × Nat)) (σ : Store) (scores : List (Val × ℚ))
      (provs : List Provenance) (σ' : Store) (r : List (Val × ℚ))
      (ps : List Provenance),
      rankedMultiGo ctx k σ queries scores provs = (σ', .ok (r, ps)) →
      ps.map Provenance.sql_or_view =
        provs.map Provenance.sql_or_view ++ queries.map Prod.fst := by
  intro queries
  induction queries with
  | nil =>
    intro σ scores provs σ' r ps h
    injection h with h1 h2
    injection h2 with h2
    injection h2 with h2 h3
    simp [← h3]
  | cons q rest ih =>
    intro σ scores provs σ' r ps h
    obtain ⟨name, pRef⟩ := q
    unfold rankedMultiGo at h
    cases hrun : runSql ctx σ name pRef (some k) with
    | mk σ1 res =>
      rw [hrun] at h
      cases res with
      | error e =>
        dsimp only at h
        injection h with h1 h2
        cases h2
      | ok rp =>
        obtain ⟨rows, prov⟩ := rp
        dsimp only at h
        cases hmerge : mergeRows scores rows with
        | error e =>
          rw [hmerge] at h
          dsimp only at h
          injection h with h1 h2
          cases h2
        | ok scores' =>
          rw [hmerge] at h
          have hname := runSql_ok_name ctx σ name pRef (some k) σ1 rows prov hrun
          have hh := ih σ1 scores' (provs ++ [prov]) σ' r ps h
          rw [hh]
          simp [hname]

/-- C5: `ranked_multi` retains the per-key maximum score (spelled out by
the `foldMaxOpt`/`keyScores` characterisation of its row loop), sorts the
merged entries by score descending, truncates to the first `k`, and returns
one provenance per sub-query in input order; in particular, with `one.sql`
yielding `[("alpha",1.0),("beta",0.5)]`, `two.sql` yielding
`[("beta",0.9),("gamma",0.2)]` and `k = 5`, it returns
`[("alpha",1.0),("beta",0.9),("gamma",0.2)]` with exactly the two
provenance records, in input order. -/
theorem C5_ranked_multi_merge :
    (rankedMulti rankedCtx [[("schema", .vStr "public")], [("schema", .vStr "public")]]
        [("one.sql", 0), ("two.sql", 1)] 5).2 =
      .ok ([(.vStr "alpha", 1), (.vStr "beta", 9 / 10), (.vStr "gamma", 1 / 5)],
        [{ sql_or_view := "one.sql", paramsRef := 2, as_of_ts := "ts", row_count := 2,
            duration_ms := 1 },
          { sql_or_view := "two.sql", paramsRef := 3, as_of_ts := "ts", row_count := 2,
            duration_ms := 1 }]) ∧
    (∀ (ctx : RunCtx) (σ σ' : Store) (queries : List (String × Nat)) (k : Int)
        (r : List (Val × ℚ)) (ps : List Provenance),
      rankedMulti ctx σ queries k = (σ', .ok (r, ps)) →
      ps.map Provenance.sql_or_view = queries.map Prod.fst ∧
      r.Pairwise (fun a b => b.2 ≤ a.2) ∧
      (0 ≤ k → r.length ≤ k.toNat)) ∧
    (∀ (rows : List Row) (m : List (Val × ℚ)),
      mergeRows [] rows = .ok m → ∀ key,
        alistGet m key = foldMaxOpt none (keyScores key rows)) := by
  refine ⟨?_, ?_, ?_⟩
  · have e1 : rankedMulti rankedCtx
        [[("schema", .vStr "public")], [("schema", .vStr "public")]]
        [("one.sql", 0), ("two.sql", 1)] 5 =
        ([[("schema", .vStr "public")], [("schema", .vStr "public")],
          [("schema", .vStr "public"), ("limit", .vInt 5)],
          [("schema", .vStr "public"), ("limit", .vInt 5)]],
          .ok (pyTake 5 (sortDescStable
              [(.vStr "alpha", 1), (.vStr "beta", pyMaxQ (1 / 2) (9 / 10)),
                (.vStr "gamma", 1 / 5)]),
            [{ sql_or_view := "one.sql", paramsRef := 2, as_of_ts := "ts", row_count := 2,
                duration_ms := 1 },
              { sql_or_view := "two.sql", paramsRef := 3, as_of_ts := "ts", row_count := 2,
                duration_ms := 1 }])) := rfl
    rw [e1]
    have hmax : pyMaxQ (1 / 2) (9 / 10) = 9 / 10 := by norm_num [pyMaxQ]
    rw [hmax]
    norm_num [sortDescStable, insertDesc, pyTake, List.foldl_cons, List.foldl_nil,
      Int.toNat]
  · intro ctx σ σ' queries k r ps h
    unfold rankedMulti at h
    cases hgo : rankedMultiGo ctx k σ queries [] [] with
    | mk σ2 res =>
      rw [hgo] at h
      cases res with
      | error e =>
        dsimp only at h
        injection h with h1 h2
        cases h2
      | ok sp =>
        obtain ⟨scores, provs⟩ := sp
        dsimp only at h
        injection h with h1 h2
        injection h2 with h2
        injection h2 with h2 h3
        subst h2 h3
        refine ⟨?_, ?_, ?_⟩
        · simpa using rankedMultiGo_prov_names ctx k queries σ [] [] σ2 scores provs hgo
        · have hsorted := sortDescStable_sorted scores
          unfold pyTake
          split
          · exact List.Pairwise.sublist (List.take_sublist _ _) hsorted
          · exact List.Pairwise.sublist (List.take_sublist _ _) hsorted
        · intro hk
          unfold pyTake
          rw [if_pos hk]
          exact List.length_take_le _ _
  · intro rows m h key
    have hh := mergeRows_max rows [] m h key
    simpa [alistGet] using hh

/-- Closed instantiation of C5's merge rule at the example's concatenated
rows: the entry for `beta` is the fold of `0.5` and `0.9`. -/
theorem C5_ranked_multi_merge_witness :
    alistGet [((.vStr "alpha" : Val), (1 : ℚ)), (.vStr "beta", pyMaxQ (1 / 2) (9 / 10)),
        (.vStr "gamma", 1 / 5)] (.vStr "beta") =
      foldMaxOpt none (keyScores (.vStr "beta")
        [[.vStr "alpha", .vRat 1], [.vStr "beta", .vRat (1 / 2)],
          [.vStr "beta", .vRat (9 / 10)], [.vStr "gamma", .vRat (1 / 5)]]) :=
  C5_ranked_multi_merge.2.2
    [[.vStr "alpha", .vRat 1], [.vStr "beta", .vRat (1 / 2)],
      [.vStr "beta", .vRat (9 / 10)], [.vStr "gamma", .vRat (1 / 5)]]
    [((.vStr "alpha" : Val), (1 : ℚ)), (.vStr "beta", pyMaxQ (1 / 2) (9 / 10)),
      (.vStr "gamma", 1 / 5)] rfl (.vStr "beta")

end VerticaMCP
